import Mathlib

/-!
Shallow embedding of `src/upload_images.py`, the DigitalOcean Spaces image
uploader.  Pure computations (thumbnail geometry, extension filtering,
statistics bookkeeping) are translated directly from the Python source.
Interactions with the object store are modelled by explicit environments
describing the store's response to each request, and interactions with the
filesystem by explicit lists of directory entries.  Python float division
is modelled by exact rational arithmetic; every concrete input used below
keeps a margin far larger than any double-precision rounding error.
-/

namespace Uploader

/-! ## `upload_file` (source lines 195-241) -/

/-- Outcome of one `put_object` call as seen by `upload_file`: the call
succeeds, raises a `ClientError` (the retryable branch, source line 231),
or raises any other exception (the `except Exception` branch, line 237). -/
inductive PutResult where
  | ok
  | clientErr
  | unexpectedErr
deriving DecidableEq

/-- The retry loop of `upload_file` (source lines 209-241).  `beh a` is the
store's response to the put attempt with 0-based index `a`, mirroring
`for attempt in range(retry_count)`.  Returns the boolean result of
`upload_file` paired with the number of put attempts actually issued. -/
def upload_fileGo (beh : Nat → PutResult) (retry_count : Nat) (attempt : Nat) :
    Bool × Nat :=
  if _h : attempt < retry_count then
    match beh attempt with
    | .ok => (true, attempt + 1)
    | .clientErr =>
        if attempt < retry_count - 1 then
          upload_fileGo beh retry_count (attempt + 1)
        else
          (false, attempt + 1)
    | .unexpectedErr => (false, attempt + 1)
  else
    (false, attempt)
termination_by retry_count - attempt
decreasing_by omega

/-- Boolean result of `upload_file` for a given store behaviour. -/
def upload_file (beh : Nat → PutResult) (retry_count : Nat) : Bool :=
  (upload_fileGo beh retry_count 0).1

/-- Number of put attempts issued by one `upload_file` call. -/
def upload_file_puts (beh : Nat → PutResult) (retry_count : Nat) : Nat :=
  (upload_fileGo beh retry_count 0).2

/-! ## `file_exists_in_spaces` (source lines 179-193) -/

/-- Result of the store's `head_object` call: success, one of the
`ClientError` cases (404 not-found, 403 forbidden, any other status), or
an exception that is not a `ClientError` (for example a connection error
raised below the client layer). -/
inductive HeadResult where
  | found
  | notFound
  | forbidden
  | otherClientErr
  | nonClientErr
deriving DecidableEq

/-- Whether the head response is a `ClientError`. -/
def HeadResult.isClientError : HeadResult → Bool
  | .notFound | .forbidden | .otherClientErr => true
  | _ => false

/-- Model of `file_exists_in_spaces` (source lines 189-193): `head_object` then
`return True`; only `except ClientError` is caught and turned into
`False`; any other exception propagates to the caller, modelled as
`Except.error ()`. -/
def file_exists_in_spaces (r : HeadResult) : Except Unit Bool :=
  match r with
  | .found => .ok true
  | .notFound => .ok false
  | .forbidden => .ok false
  | .otherClientErr => .ok false
  | .nonClientErr => .error ()

/-! ## `process_and_upload_image` (source lines 243-307) -/

/-- Store environment for one source file: the head responses for its two
remote keys and the boolean results of the (already separately modelled)
`upload_file` calls, plus whether `create_thumbnail` returns data. -/
structure FileEnv where
  originalHead : HeadResult
  thumbnailHead : HeadResult
  originalUpload : Bool
  thumbCreate : Bool
  thumbUpload : Bool
deriving DecidableEq

/-- Result of one `process_and_upload_image` call: `outcome = some (o, t)`
is the returned pair, `outcome = none` means an uncaught exception
propagated (a non-`ClientError` failure of an existence check);
`skippedInc` is the increment applied to `skipped_files` inside the call
(source line 277), and `originalPuts` / `thumbPuts` count the
`upload_file` invocations for each variant. -/
structure ProcResult where
  outcome : Option (Bool × Bool)
  skippedInc : Nat
  originalPuts : Nat
  thumbPuts : Nat
deriving DecidableEq

/-- Upload phase of `process_and_upload_image` (source lines 280-307),
reached when the both-exist skip branch was not taken. -/
def processUploads (env : FileEnv)
    (skip_existing original_exists thumbnail_exists : Bool) : ProcResult :=
  let orig : Bool × Nat :=
    if !skip_existing || !original_exists then (env.originalUpload, 1)
    else (true, 0)
  let thumb : Bool × Nat :=
    if !skip_existing || !thumbnail_exists then
      if env.thumbCreate then (env.thumbUpload, 1) else (false, 0)
    else (true, 0)
  { outcome := some (orig.1, thumb.1), skippedInc := 0,
    originalPuts := orig.2, thumbPuts := thumb.2 }

/-- Model of `process_and_upload_image` (source lines 243-307).  When
`skip_existing` is set the two existence checks run first (lines 270-272);
an exception escaping `file_exists_in_spaces` propagates out of the whole
call.  If both keys exist the file is counted as skipped and `(True,
True)` is returned (lines 274-278); otherwise the upload phase runs. -/
def process_and_upload_image (env : FileEnv) (skip_existing : Bool) :
    ProcResult :=
  if skip_existing then
    match file_exists_in_spaces env.originalHead with
    | .error _ =>
        { outcome := none, skippedInc := 0, originalPuts := 0, thumbPuts := 0 }
    | .ok original_exists =>
      match file_exists_in_spaces env.thumbnailHead with
      | .error _ =>
          { outcome := none, skippedInc := 0, originalPuts := 0, thumbPuts := 0 }
      | .ok thumbnail_exists =>
        if original_exists && thumbnail_exists then
          { outcome := some (true, true), skippedInc := 1,
            originalPuts := 0, thumbPuts := 0 }
        else
          processUploads env skip_existing original_exists thumbnail_exists
  else
    processUploads env false false false

/-! ## Statistics and the two driver loops (source lines 309-425) -/

/-- The four counters of `self.stats` (source lines 72-77). -/
structure Stats where
  total_files : Nat
  successful_uploads : Nat
  failed_uploads : Nat
  skipped_files : Nat
deriving DecidableEq

/-- Counting done per file by `_upload_sequential` (source lines 350-365)
and identically by `_upload_concurrent` (lines 396-412): the skipped
increment happens inside `process_and_upload_image`; the caller then
increments `successful_uploads` when both booleans of the returned pair
are true, and `failed_uploads` otherwise or when the call raised. -/
def recordOutcome (s : Stats) (r : ProcResult) : Stats :=
  let s := { s with skipped_files := s.skipped_files + r.skippedInc }
  match r.outcome with
  | some (o, t) =>
    if o && t then { s with successful_uploads := s.successful_uploads + 1 }
    else { s with failed_uploads := s.failed_uploads + 1 }
  | none => { s with failed_uploads := s.failed_uploads + 1 }

/-- Running state of one `upload_directory` call: the statistics and the
total number of `upload_file` invocations issued so far. -/
structure RunAcc where
  stats : Stats
  puts : Nat
deriving DecidableEq

/-- Effect of processing one file on the running state. -/
def processFile (skip_existing : Bool) (acc : RunAcc) (env : FileEnv) :
    RunAcc :=
  let r := process_and_upload_image env skip_existing
  { stats := recordOutcome acc.stats r,
    puts := acc.puts + r.originalPuts + r.thumbPuts }

/-- Model of `_upload_sequential` (source lines 344-367): one pass over the files. -/
def uploadSequential (envs : List FileEnv) (skip_existing : Bool)
    (acc : RunAcc) : RunAcc :=
  envs.foldl (processFile skip_existing) acc

/-- Batch partition of `_upload_concurrent` (source lines 375-377):
`range(0, len, batch_size)` with `batch = files[start:start+batch_size]`.
Structural recursion on a fuel argument; `chunks` below instantiates the
fuel with the list length, which suffices whenever `b ≥ 1`. -/
def chunksGo (b : Nat) : Nat → List FileEnv → List (List FileEnv)
  | _, [] => []
  | 0, _ :: _ => []
  | fuel + 1, x :: xs => (x :: xs).take b :: chunksGo b fuel ((x :: xs).drop b)

/-- The batch list processed by `_upload_concurrent`. -/
def chunks (b : Nat) (l : List FileEnv) : List (List FileEnv) :=
  chunksGo b l.length l

/-- Model of `_upload_concurrent` (source lines 369-414).  Batches run strictly in
order; within a batch the per-file results are folded in submission order,
which yields the same final counters as any completion order because every
update is a lock-protected independent increment. -/
def uploadConcurrent (envs : List FileEnv) (skip_existing : Bool)
    (batch_size : Nat) (acc : RunAcc) : RunAcc :=
  (chunks batch_size envs).foldl
    (fun a batch => batch.foldl (processFile skip_existing) a) acc

/-- Observable result of one `upload_directory` call: the final statistics,
whether `print_summary` ran, and how many `upload_file` calls were made. -/
structure RunResult where
  stats : Stats
  summaryPrinted : Bool
  puts : Nat
deriving DecidableEq

/-- Model of `upload_directory` (source lines 309-342).  `total_files` is set before
the empty check (line 326); with no image files the function logs a
warning and returns without printing the summary (lines 328-330).
`none` models an uncaught exception: with `workers ≠ 1`, a zero
`batch_size` makes `range(0, n, 0)` raise `ValueError` (line 375), and
`workers = 0` makes `ThreadPoolExecutor(max_workers=0)` raise (line 383);
neither is caught inside `upload_directory`. -/
def upload_directory (envs : List FileEnv) (skip_existing : Bool)
    (workers : Nat) (batch_size : Nat) : Option RunResult :=
  let stats0 : Stats :=
    { total_files := envs.length, successful_uploads := 0,
      failed_uploads := 0, skipped_files := 0 }
  if envs.isEmpty then
    some { stats := stats0, summaryPrinted := false, puts := 0 }
  else if workers == 1 then
    let acc := uploadSequential envs skip_existing { stats := stats0, puts := 0 }
    some { stats := acc.stats, summaryPrinted := true, puts := acc.puts }
  else if batch_size == 0 || workers == 0 then
    none
  else
    let acc :=
      uploadConcurrent envs skip_existing batch_size { stats := stats0, puts := 0 }
    some { stats := acc.stats, summaryPrinted := true, puts := acc.puts }

/-- Store environment of a file whose original and thumbnail keys both
already exist (the situation of a rerun against an unchanged store). -/
def envAllFound : FileEnv :=
  { originalHead := .found, thumbnailHead := .found,
    originalUpload := true, thumbCreate := true, thumbUpload := true }

/-! ## `create_thumbnail` geometry (source lines 106-164) -/

/-- Thumbnail width constant (source line 39). -/
def THUMBNAIL_WIDTH : Nat := 200

/-- Thumbnail height constant (source line 40). -/
def THUMBNAIL_HEIGHT : Nat := 300

/-- Python `int()` applied to a (rational) number: truncation toward
zero. -/
def pyInt (q : ℚ) : ℤ := if 0 ≤ q then ⌊q⌋ else ⌈q⌉

/-- The resize dimensions `(new_width, new_height)` computed by
`create_thumbnail` (source lines 130-141) for an input of `w × h` pixels:
`aspect_ratio = w / h`, `target_ratio = 200 / 300`; the wider branch sets
`new_height = 300` and `new_width = int(300 * aspect_ratio)`, the other
branch sets `new_width = 200` and `new_height = int(200 / aspect_ratio)`.
Python float division is modelled by exact rational division. -/
def resizedDims (w h : Nat) : ℤ × ℤ :=
  let aspect : ℚ := (w : ℚ) / (h : ℚ)
  let targetR : ℚ := (THUMBNAIL_WIDTH : ℚ) / (THUMBNAIL_HEIGHT : ℚ)
  if targetR < aspect then
    (pyInt ((THUMBNAIL_HEIGHT : ℚ) * aspect), (THUMBNAIL_HEIGHT : ℤ))
  else
    ((THUMBNAIL_WIDTH : ℤ), pyInt ((THUMBNAIL_WIDTH : ℚ) / aspect))

/-- Left edge of the center crop box, `(new_width - THUMBNAIL_WIDTH) // 2`
(source line 147); Python `//` is floor division, i.e. `Int.fdiv`. -/
def cropLeft (w h : Nat) : ℤ :=
  Int.fdiv ((resizedDims w h).1 - (THUMBNAIL_WIDTH : ℤ)) 2

/-- Top edge of the center crop box, `(new_height - THUMBNAIL_HEIGHT) // 2`
(source line 148). -/
def cropTop (w h : Nat) : ℤ :=
  Int.fdiv ((resizedDims w h).2 - (THUMBNAIL_HEIGHT : ℤ)) 2

/-- Pixel dimensions of the image produced by
`img_resized.crop((left, top, right, bottom))` (source lines 147-153):
a crop always yields an image of exactly `(right - left) × (bottom - top)`
pixels, with `right = left + THUMBNAIL_WIDTH` and
`bottom = top + THUMBNAIL_HEIGHT`. -/
def thumbnailDims (w h : Nat) : ℤ × ℤ :=
  ((cropLeft w h + (THUMBNAIL_WIDTH : ℤ)) - cropLeft w h,
   (cropTop w h + (THUMBNAIL_HEIGHT : ℤ)) - cropTop w h)

/-! ## `get_image_files` (source lines 83-104) -/

/-- The supported extension set (source line 36). -/
def SUPPORTED_EXTENSIONS : List String :=
  [".jpg", ".jpeg", ".png", ".webp", ".gif", ".bmp", ".tiff", ".tif"]

/-- One entry yielded by `directory_path.rglob('*')`: its path (as a
POSIX-style string) and whether it is a regular file. -/
structure FsEntry where
  path : String
  isFile : Bool
deriving DecidableEq

/-- Characters after the last `'/'` of a path. -/
def lastComponent (cs : List Char) : List Char :=
  cs.foldl (fun acc c => if c = '/' then [] else acc ++ [c]) []

/-- Final component of a path, as used by `pathlib` to compute the
suffix. -/
def pyName (p : String) : String := String.mk (lastComponent p.data)

/-- Python `str.lower()` (ASCII behaviour suffices for extensions). -/
def pyLower (s : String) : String := String.mk (s.data.map Char.toLower)

/-- Index of the last `'.'` in a character list, if any. -/
def rfindDot (cs : List Char) : Option Nat :=
  (List.range cs.length).foldl
    (fun acc i => if cs.getD i ' ' = '.' then some i else acc) none

/-- Suffix of a file name as computed by `pathlib`: the substring from the last dot,
provided that dot is neither the first nor the last character
(`0 < i < len(name) - 1` in CPython), else the empty string. -/
def pySuffix (nm : String) : String :=
  let cs := nm.toList
  match rfindDot cs with
  | none => ""
  | some i =>
      if 0 < i ∧ i < cs.length - 1 then String.mk (cs.drop i) else ""

/-- Lexicographic order on character lists, used to model the ordering of
the `sorted(...)` call. -/
def pathLe : List Char → List Char → Bool
  | [], _ => true
  | _ :: _, [] => false
  | a :: as, b :: bs =>
      if a < b then true else if b < a then false else pathLe as bs

/-- Insert into a sorted list of paths, keeping ascending order. -/
def insertSorted (x : String) : List String → List String
  | [] => [x]
  | y :: ys => if pathLe x.data y.data then x :: y :: ys
               else y :: insertSorted x ys

/-- The `sorted(...)` call on the collected paths (source line 104). -/
def pySorted (l : List String) : List String := l.foldr insertSorted []

/-- Model of `get_image_files` (source lines 99-104): keep each scanned entry that
is a regular file whose lowercased suffix is in `SUPPORTED_EXTENSIONS`,
then return the sorted list of paths. -/
def get_image_files (entries : List FsEntry) : List String :=
  pySorted ((entries.filter (fun e =>
    e.isFile && SUPPORTED_EXTENSIONS.contains
      (pyLower (pySuffix (pyName e.path))))).map FsEntry.path)

/-! ## Theorems about `upload_file` -/

/-- The attempt counter of the retry loop never exceeds `retry_count`. -/
theorem upload_fileGo_puts_le (beh : Nat → PutResult) (n : Nat) :
    ∀ k a, n - a ≤ k → a ≤ n → (upload_fileGo beh n a).2 ≤ n := by
  intro k
  induction k with
  | zero =>
    intro a h1 h2
    have ha : a = n := by omega
    subst ha
    rw [upload_fileGo]
    simp
  | succ k ih =>
    intro a h1 h2
    rw [upload_fileGo]
    split
    · split
      · simpa using by omega
      · split
        · exact ih (a + 1) (by omega) (by omega)
        · simpa using by omega
      · simpa using by omega
    · simpa using h2

/-- C10: `upload_file` terminates for every non-negative `retry_count`,
performing at most `retry_count` put attempts in total; in particular with
`retry_count = 0` it returns `False` without attempting any upload.
(Totality is witnessed by `upload_fileGo` being accepted as a terminating
function.) -/
theorem upload_file_put_attempt_bound :
    (∀ (beh : Nat → PutResult) (n : Nat), upload_file_puts beh n ≤ n) ∧
    (∀ beh : Nat → PutResult,
      upload_file beh 0 = false ∧ upload_file_puts beh 0 = 0) := by
  constructor
  · intro beh n
    exact upload_fileGo_puts_le beh n n 0 (by omega) (by omega)
  · intro beh
    unfold upload_file upload_file_puts
    rw [upload_fileGo]
    simp

/-- If every attempt before the last raises a `ClientError` and the last
attempt succeeds, the loop returns `true` after exactly `retry_count`
attempts. -/
theorem upload_fileGo_transient_then_ok (beh : Nat → PutResult) (n : Nat)
    (h1 : 1 ≤ n) (ht : ∀ i, i < n - 1 → beh i = PutResult.clientErr)
    (hk : beh (n - 1) = PutResult.ok) :
    ∀ k a, n - 1 - a = k → a ≤ n - 1 → upload_fileGo beh n a = (true, n) := by
  intro k
  induction k with
  | zero =>
    intro a hk0 ha
    have ha' : a = n - 1 := by omega
    subst ha'
    rw [upload_fileGo]
    split
    · simp only [hk]
      have : n - 1 + 1 = n := by omega
      rw [this]
    · omega
  | succ k ih =>
    intro a hk1 ha
    have hlt : a < n - 1 := by omega
    rw [upload_fileGo]
    split
    · simp only [ht a hlt, if_pos hlt]
      exact ih (a + 1) (by omega) (by omega)
    · omega

/-- C6: for every upload where the store raises a transient (client) error
on each of the first `retry_count - 1` attempts and the put succeeds on
the final attempt, `upload_file` returns `True`: the variant is recorded
as successful, not failed. -/
theorem upload_retry_success_on_last_attempt (beh : Nat → PutResult)
    (n : Nat) (h1 : 1 ≤ n)
    (ht : ∀ i, i < n - 1 → beh i = PutResult.clientErr)
    (hk : beh (n - 1) = PutResult.ok) :
    upload_file beh n = true := by
  unfold upload_file
  rw [upload_fileGo_transient_then_ok beh n h1 ht hk (n - 1) 0 rfl (by omega)]

/-- Witness for C6 at `retry_count = 3` with failures on attempts 0 and 1
and success on attempt 2. -/
theorem upload_retry_success_on_last_attempt_witness :
    upload_file (fun i => if i < 2 then PutResult.clientErr else PutResult.ok)
      3 = true :=
  upload_retry_success_on_last_attempt _ 3 (by omega)
    (by intro i hi; have h2 : i < 2 := hi; simp [h2])
    (by simp)

/-! ## Theorems about `file_exists_in_spaces` -/

/-- C7 counterexample: on a head failure that is not a `ClientError` the
function neither returns `False` nor `True` — the exception propagates to
the caller, refuting the claim that any error is turned into `False`. -/
theorem file_exists_raises_on_non_client_error :
    file_exists_in_spaces HeadResult.nonClientErr ≠ Except.ok false ∧
    file_exists_in_spaces HeadResult.nonClientErr ≠ Except.ok true :=
  ⟨fun h => Except.noConfusion h, fun h => Except.noConfusion h⟩

/-- C7 amended: `file_exists_in_spaces` returns `False` exactly when the
existence query raises a `ClientError` (not-found, forbidden, or any other
client error), returns `True` exactly when the query succeeds, and
propagates the exception exactly when the query raises an error that is
not a `ClientError`. -/
theorem file_exists_characterization (r : HeadResult) :
    (file_exists_in_spaces r = Except.ok false ↔ r.isClientError = true) ∧
    (file_exists_in_spaces r = Except.ok true ↔ r = HeadResult.found) ∧
    (file_exists_in_spaces r = Except.error () ↔ r = HeadResult.nonClientErr) := by
  cases r <;> simp [file_exists_in_spaces, HeadResult.isClientError]

/-! ## Theorems about `upload_directory` and the statistics -/

/-- C1 (refuted): a run over one file whose two remote keys both already
exist, with `skip_existing = true` and `workers = 1`, ends with stats
`{total: 1, success: 1, failed: 0, skipped: 1}` — the file is counted both
as skipped (inside `process_and_upload_image`) and as successful (by the
caller, since `(True, True)` was returned) — so
`successful_uploads + failed_uploads + skipped_files = 2 ≠ 1 = total_files`,
violating the claimed sum invariant. -/
theorem sum_invariant_fails_when_skipping :
    (upload_directory [envAllFound] true 1 100).map
        (fun r => (r.stats.successful_uploads + r.stats.failed_uploads +
          r.stats.skipped_files, r.stats.total_files)) = some (2, 1) ∧
      (2 : Nat) ≠ 1 := ⟨rfl, by omega⟩

/-- C2 (refuted): a full rerun over three files with `skip_existing = true`
against an unchanged store performs zero store writes and ends with
`skipped_files = 3 = total_files` as the claim says, but
`successful_uploads = 3`, not `0`: each skipped file is also counted
toward `successful_uploads`. -/
theorem rerun_counts_skipped_as_successful :
    upload_directory [envAllFound, envAllFound, envAllFound] true 1 100 =
      some { stats := { total_files := 3, successful_uploads := 3,
                        failed_uploads := 0, skipped_files := 3 },
             summaryPrinted := true, puts := 0 } ∧ (3 : Nat) ≠ 0 :=
  ⟨rfl, by omega⟩

/-- C3 counterexample: on a directory containing no supported image files,
`upload_directory` completes but returns early without emitting the final
statistics summary (source lines 328-330). -/
theorem no_summary_for_empty_directory :
    (upload_directory [] true 1 100).map RunResult.summaryPrinted =
      some false := rfl

/-- C3 amended: whenever at least one image file is found, every completed
`upload_directory` run emits the final statistics summary, regardless of
any non-fatal per-file failures; with zero image files the function logs a
warning and returns without the summary. -/
theorem summary_printed_when_files_found (envs : List FileEnv)
    (skip_existing : Bool) (workers batch_size : Nat) (r : RunResult)
    (hne : envs ≠ [])
    (hr : upload_directory envs skip_existing workers batch_size = some r) :
    r.summaryPrinted = true := by
  have hemp : envs.isEmpty = false := by
    cases envs with
    | nil => exact absurd rfl hne
    | cons a l => rfl
  unfold upload_directory at hr
  simp only [hemp, Bool.false_eq_true, if_false] at hr
  split at hr
  · rcases Option.some.inj hr with rfl
    rfl
  · split at hr
    · exact absurd hr (by simp)
    · rcases Option.some.inj hr with rfl
      rfl

/-- Witness for the amended C3: a non-empty run with two workers completes
and has its summary printed. -/
theorem summary_printed_when_files_found_witness :
    upload_directory [envAllFound] true 2 5 =
      some { stats := { total_files := 1, successful_uploads := 1,
                        failed_uploads := 0, skipped_files := 1 },
             summaryPrinted := true, puts := 0 } ∧
    RunResult.summaryPrinted
      { stats := { total_files := 1, successful_uploads := 1,
                   failed_uploads := 0, skipped_files := 1 },
        summaryPrinted := true, puts := 0 } = true :=
  ⟨rfl, summary_printed_when_files_found [envAllFound] true 2 5 _
    (by simp) rfl⟩

/-! ## Theorems about the thumbnail geometry -/

/-- Truncation of a quotient of naturals is natural division. -/
theorem pyInt_natCast_div (a b : Nat) :
    pyInt ((a : ℚ) / (b : ℚ)) = ((a / b : Nat) : ℤ) := by
  unfold pyInt
  rw [if_pos (by positivity), Rat.floor_natCast_div_natCast]
  exact (Int.ofNat_tdiv a b).symm

/-- The resize dimensions in integer terms: the branch test
`target_ratio < aspect_ratio` is `2 * h < 3 * w`, and each `int(...)`
truncation is a natural-number division. -/
theorem resizedDims_natDiv (w h : Nat) (hw : 1 ≤ w) (hh : 1 ≤ h) :
    resizedDims w h =
      if 2 * h < 3 * w then (((300 * w / h : Nat) : ℤ), (300 : ℤ))
      else ((200 : ℤ), ((200 * h / w : Nat) : ℤ)) := by
  have hw0 : (0 : ℚ) < w := by exact_mod_cast hw
  have hh0 : (0 : ℚ) < h := by exact_mod_cast hh
  have hcond : ((200 : ℚ) / (300 : ℚ) < (w : ℚ) / (h : ℚ)) ↔ 2 * h < 3 * w := by
    rw [div_lt_div_iff₀ (by norm_num) hh0,
      show (200 : ℚ) * h = ((200 * h : ℕ) : ℚ) from by push_cast; ring,
      show (w : ℚ) * (300 : ℚ) = ((w * 300 : ℕ) : ℚ) from by push_cast; ring,
      Nat.cast_lt]
    omega
  have e1 : (300 : ℚ) * ((w : ℚ) / (h : ℚ)) = ((300 * w : ℕ) : ℚ) / ((h : ℕ) : ℚ) := by
    push_cast
    ring
  have e2 : (200 : ℚ) / ((w : ℚ) / (h : ℚ)) = ((200 * h : ℕ) : ℚ) / ((w : ℕ) : ℚ) := by
    rw [div_div_eq_mul_div]
    push_cast
    ring
  simp only [resizedDims, THUMBNAIL_WIDTH, THUMBNAIL_HEIGHT, Nat.cast_ofNat]
  by_cases hc : 2 * h < 3 * w
  · rw [if_pos (hcond.mpr hc), if_pos hc, e1, pyInt_natCast_div]
  · rw [if_neg (fun hx => hc (hcond.mp hx)), if_neg hc, e2, pyInt_natCast_div]

/-- C4 counterexample: for a 7 × 12 input (`aspect_ratio = 7/12` is not
greater than `target_ratio = 2/3`, so the `else` branch) the code computes
`new_height = int(200 / (7/12)) = int(342.857...) = 342`, while the claim's
`round(W / aspectRatio) = round(342.857...) = 343`: `int()` truncates, it
does not round to nearest. -/
theorem resize_rounding_counterexample :
    resizedDims 7 12 = (200, 342) ∧
    round ((200 : ℚ) / (((7 : Nat) : ℚ) / ((12 : Nat) : ℚ))) = 343 := by
  constructor
  · rw [resizedDims_natDiv 7 12 (by omega) (by omega), if_neg (by omega)]
    norm_num
  · rw [show (200 : ℚ) / (((7 : Nat) : ℚ) / ((12 : Nat) : ℚ)) = (2400 : ℚ) / 7
        from by push_cast; norm_num, round_eq,
      show (2400 : ℚ) / 7 + 1 / 2 = ((4807 : Nat) : ℚ) / ((14 : Nat) : ℚ)
        from by push_cast; norm_num,
      Rat.floor_natCast_div_natCast]
    norm_num

/-- C4 amended: in `create_thumbnail`, when `aspectRatio > targetRatio`
the resized width equals `floor(H * aspectRatio)` (truncation by `int()`,
not rounding to nearest) and the height is exactly `H`; otherwise the
resized height equals `floor(W / aspectRatio)` and the width is exactly
`W`, with `W = 200`, `H = 300`. -/
theorem resize_dims_truncated (w h : Nat) (hw : 1 ≤ w) (hh : 1 ≤ h) :
    (2 * h < 3 * w →
      resizedDims w h = (⌊(300 : ℚ) * ((w : ℚ) / (h : ℚ))⌋, 300)) ∧
    (¬ 2 * h < 3 * w →
      resizedDims w h = (200, ⌊(200 : ℚ) / ((w : ℚ) / (h : ℚ))⌋)) := by
  constructor
  · intro hc
    rw [resizedDims_natDiv w h hw hh, if_pos hc,
      show (300 : ℚ) * ((w : ℚ) / (h : ℚ)) = ((300 * w : ℕ) : ℚ) / ((h : ℕ) : ℚ)
        from by push_cast; ring,
      Rat.floor_natCast_div_natCast]
    exact congrArg (fun z => (z, (300 : ℤ))) (Int.ofNat_tdiv (300 * w) h)
  · intro hc
    rw [resizedDims_natDiv w h hw hh, if_neg hc,
      show (200 : ℚ) / ((w : ℚ) / (h : ℚ)) = ((200 * h : ℕ) : ℚ) / ((w : ℕ) : ℚ)
        from by rw [div_div_eq_mul_div]; push_cast; ring,
      Rat.floor_natCast_div_natCast]
    exact congrArg (fun z => ((200 : ℤ), z)) (Int.ofNat_tdiv (200 * h) w)

/-- Witness for the amended C4 at the 7 × 12 input. -/
theorem resize_dims_truncated_witness :
    resizedDims 7 12 = (200, ⌊(200 : ℚ) / (((7 : Nat) : ℚ) / ((12 : Nat) : ℚ))⌋) :=
  (resize_dims_truncated 7 12 (by omega) (by omega)).2 (by omega)

/-- Floor division of a cast difference, mirroring Python `(n - c) // 2`
for `c ≤ n`. -/
theorem fdiv_natCast_sub (n c : Nat) (hcn : c ≤ n) :
    Int.fdiv ((n : ℤ) - (c : ℤ)) 2 = (((n - c) / 2 : Nat) : ℤ) := by
  rw [show ((n : ℤ) - (c : ℤ)) = ((n - c : Nat) : ℤ) from by omega,
    show (2 : ℤ) = ((2 : Nat) : ℤ) from rfl, ← Int.ofNat_fdiv]

/-- C5: for every input image that decodes successfully (so has positive
pixel dimensions), the thumbnail produced by `create_thumbnail` has pixel
dimensions exactly 200 × 300, whatever the input dimensions; moreover the
center crop box lies entirely inside the resized image, so no padding is
ever involved. -/
theorem thumbnail_dims_exact (w h : Nat) (hw : 1 ≤ w) (hh : 1 ≤ h) :
    thumbnailDims w h = (200, 300) ∧
    0 ≤ cropLeft w h ∧ cropLeft w h + 200 ≤ (resizedDims w h).1 ∧
    0 ≤ cropTop w h ∧ cropTop w h + 300 ≤ (resizedDims w h).2 := by
  have hd := resizedDims_natDiv w h hw hh
  have hfirst : thumbnailDims w h = (200, 300) := by
    simp [thumbnailDims, THUMBNAIL_WIDTH, THUMBNAIL_HEIGHT]
  by_cases hc : 2 * h < 3 * w
  · rw [if_pos hc] at hd
    have hn : 200 ≤ 300 * w / h := by
      rw [Nat.le_div_iff_mul_le (by omega)]
      omega
    have h1 : (resizedDims w h).1 = ((300 * w / h : Nat) : ℤ) := by rw [hd]
    have h2 : (resizedDims w h).2 = (300 : ℤ) := by rw [hd]
    have hL : cropLeft w h = (((300 * w / h - 200) / 2 : Nat) : ℤ) := by
      unfold cropLeft THUMBNAIL_WIDTH
      rw [h1]
      exact fdiv_natCast_sub _ 200 hn
    have hT : cropTop w h = (((300 - 300) / 2 : Nat) : ℤ) := by
      unfold cropTop THUMBNAIL_HEIGHT
      rw [h2]
      exact fdiv_natCast_sub 300 300 (by omega)
    refine ⟨hfirst, ?_, ?_, ?_, ?_⟩
    · rw [hL]; exact Int.natCast_nonneg _
    · rw [hL, h1]
      generalize hgen : 300 * w / h = n at hn ⊢
      omega
    · rw [hT]; omega
    · rw [hT, h2]; omega
  · rw [if_neg hc] at hd
    have hm : 300 ≤ 200 * h / w := by
      rw [Nat.le_div_iff_mul_le (by omega)]
      omega
    have h1 : (resizedDims w h).1 = (200 : ℤ) := by rw [hd]
    have h2 : (resizedDims w h).2 = ((200 * h / w : Nat) : ℤ) := by rw [hd]
    have hL : cropLeft w h = (((200 - 200) / 2 : Nat) : ℤ) := by
      unfold cropLeft THUMBNAIL_WIDTH
      rw [h1]
      exact fdiv_natCast_sub 200 200 (by omega)
    have hT : cropTop w h = (((200 * h / w - 300) / 2 : Nat) : ℤ) := by
      unfold cropTop THUMBNAIL_HEIGHT
      rw [h2]
      exact fdiv_natCast_sub _ 300 hm
    refine ⟨hfirst, ?_, ?_, ?_, ?_⟩
    · rw [hL]; omega
    · rw [hL, h1]; omega
    · rw [hT]; exact Int.natCast_nonneg _
    · rw [hT, h2]
      generalize hgen : 200 * h / w = m at hm ⊢
      omega

/-- Witness for C5 at a square 5 × 5 input. -/
theorem thumbnail_dims_exact_witness :
    thumbnailDims 5 5 = (200, 300) ∧
    0 ≤ cropLeft 5 5 ∧ cropLeft 5 5 + 200 ≤ (resizedDims 5 5).1 ∧
    0 ≤ cropTop 5 5 ∧ cropTop 5 5 + 300 ≤ (resizedDims 5 5).2 :=
  thumbnail_dims_exact 5 5 (by omega) (by omega)

/-! ## Theorems about `process_and_upload_image` -/

/-- C8: for every source file whose thumbnail generation fails (and whose
thumbnail branch actually runs, i.e. the call is not skipped early), no
thumbnail upload is performed and the reported `thumbnail_success` is
`false`, while the original component of the returned outcome is exactly
what it would have been had thumbnail generation succeeded. -/
theorem thumbnail_failure_isolated (env : FileEnv) (skip_existing : Bool)
    (hc : env.thumbCreate = false)
    (ho : skip_existing = true →
      file_exists_in_spaces env.originalHead ≠ Except.error ())
    (ht : skip_existing = true →
      file_exists_in_spaces env.thumbnailHead = Except.ok false) :
    (process_and_upload_image env skip_existing).thumbPuts = 0 ∧
    (process_and_upload_image env skip_existing).outcome =
      ((process_and_upload_image
          { env with thumbCreate := true } skip_existing).outcome.map
        (fun p => (p.1, false))) := by
  cases skip_existing with
  | false => simp [process_and_upload_image, processUploads, hc]
  | true =>
    have ht' := ht rfl
    have ho' := ho rfl
    cases henv : file_exists_in_spaces env.originalHead with
    | error e => cases e; exact absurd henv ho'
    | ok oe =>
      cases oe <;>
        simp [process_and_upload_image, henv, ht', processUploads, hc]

/-- Witness for C8: a file with both keys absent, original upload
succeeding, thumbnail generation failing. -/
theorem thumbnail_failure_isolated_witness :
    (process_and_upload_image
      { originalHead := .notFound, thumbnailHead := .notFound,
        originalUpload := true, thumbCreate := false, thumbUpload := true }
      true).thumbPuts = 0 ∧
    (process_and_upload_image
      { originalHead := .notFound, thumbnailHead := .notFound,
        originalUpload := true, thumbCreate := false, thumbUpload := true }
      true).outcome =
      ((process_and_upload_image
        { originalHead := .notFound, thumbnailHead := .notFound,
          originalUpload := true, thumbCreate := true, thumbUpload := true }
        true).outcome.map (fun p => (p.1, false))) :=
  thumbnail_failure_isolated
    { originalHead := .notFound, thumbnailHead := .notFound,
      originalUpload := true, thumbCreate := false, thumbUpload := true }
    true rfl (fun _ h => Except.noConfusion h) (fun _ => rfl)

/-! ## Theorems about `get_image_files` -/

/-- Membership in an insertion is membership in the parts. -/
theorem mem_insertSorted (x p : String) (l : List String) :
    p ∈ insertSorted x l ↔ p = x ∨ p ∈ l := by
  induction l with
  | nil => simp [insertSorted]
  | cons y ys ih =>
    unfold insertSorted
    by_cases hxy : pathLe x.data y.data
    · simp [hxy]
    · simp only [hxy, Bool.false_eq_true, if_false, List.mem_cons, ih]
      tauto

/-- Sorting preserves membership. -/
theorem mem_pySorted (p : String) (l : List String) :
    p ∈ pySorted l ↔ p ∈ l := by
  induction l with
  | nil => simp [pySorted]
  | cons x xs ih =>
    rw [show pySorted (x :: xs) = insertSorted x (pySorted xs) from rfl,
      mem_insertSorted, ih, List.mem_cons]

/-- C9: `get_image_files` matches extensions case-insensitively: a path is
in the returned list exactly when some scanned entry with that path is a
regular file whose lowercased suffix is one of the supported extensions;
in particular `A.JPG` and `b.PnG` are discovered while `notes.txt` and a
directory named `d.jpg` are not. -/
theorem get_image_files_characterization :
    (∀ (entries : List FsEntry) (p : String),
      p ∈ get_image_files entries ↔
        ∃ e ∈ entries, e.isFile = true ∧
          pyLower (pySuffix (pyName e.path)) ∈ SUPPORTED_EXTENSIONS ∧
          e.path = p) ∧
    get_image_files [⟨"A.JPG", true⟩, ⟨"b.PnG", true⟩, ⟨"notes.txt", true⟩,
      ⟨"d.jpg", false⟩] = ["A.JPG", "b.PnG"] := by
  constructor
  · intro entries p
    unfold get_image_files
    rw [mem_pySorted]
    simp only [List.mem_map, List.mem_filter, Bool.and_eq_true,
      List.contains, List.elem_iff]
    constructor
    · rintro ⟨e, ⟨he, hf, hs⟩, hp⟩
      exact ⟨e, he, hf, hs, hp⟩
    · rintro ⟨e, he, hf, hs, hp⟩
      exact ⟨e, ⟨he, hf, hs⟩, hp⟩
  · decide

end Uploader
